import Mathlib

/-!
# AI Privacy Guard Pro — verification of the Policy Decision & Consent Engine

A shallow embedding of the extension's core logic:

* `utils.js` — `computeRiskScore`, `isInternal`, log-entry construction;
* `background.js` — host normalization and suffix-aware matching, the active
  profile lookup, `shouldOpenRouter` (dedup/consent admission), the three
  trigger paths (tab navigation, in-page `AI_UI_DETECTED` signal, the policy
  change re-evaluation sweep), the `ROUTER_DECISION` and `PROMPT_ACTIVITY`
  handlers, and the `storage.onChanged` rules invalidation;
* `content.js` — the in-page router modal (PIN gating, cancel shield,
  decision reporting).

JavaScript strings are Lean `String`s, JS numbers that the code treats as
integers are `Int` (timestamps are `Nat` milliseconds), a missing/`undefined`
string field is `""`, a missing object is `Option.none`.  The JS `x || d`
defaulting idiom is `jsOrStr` / `jsOrInt` (`0` and `""` are falsy).  The two
`Map`s of the service worker are association lists with `Map.set`
replace-or-append semantics.
-/

namespace AIPG

/-- JS `a || b` on strings: `""` is falsy. -/
def jsOrStr (a b : String) : String := if a = "" then b else a

/-- JS `a || b` on numbers: `0` is falsy. -/
def jsOrInt (a b : Int) : Int := if a = 0 then b else a

/-! ## Character/string primitives (JS regex and `String` ops, list-of-char model) -/

/-- JS regex `\w`: `[A-Za-z0-9_]`. -/
def isWordChar (c : Char) : Bool := c.isAlphanum || c == '_'

/-- `w` occurs in `l` starting at index `i`. -/
def substrEq (l : List Char) (i : Nat) (w : List Char) : Bool :=
  ((l.drop i).take w.length) == w

/-- First index at which `pat` occurs in `l` (JS `String.includes` / first match). -/
def findSub (l pat : List Char) : Option Nat :=
  (List.range (l.length + 1)).find? (fun i => substrEq l i pat)

/-- JS `s.includes(pat)`. -/
def hasSub (s pat : String) : Bool := (findSub s.data pat.data).isSome

/-- JS `s.toLowerCase()` (ASCII letters suffice for hostnames). -/
def lowerStr (s : String) : String := String.mk (s.data.map Char.toLower)

/-- JS `s.trim()`. -/
def trimStr (s : String) : String :=
  String.mk (((s.data.dropWhile Char.isWhitespace).reverse.dropWhile Char.isWhitespace).reverse)

/-- JS regex replace `/^\.+|\.+$/g` with `""`: strip leading/trailing dots. -/
def stripDots (l : List Char) : List Char :=
  ((l.dropWhile (· == '.')).reverse.dropWhile (· == '.')).reverse

/-- `l` ends with `suf`. -/
def endsWithL (l suf : List Char) : Bool :=
  decide (suf.length ≤ l.length) && substrEq l (l.length - suf.length) suf

/-! ## URL model

The code only ever consumes `new URL(u).protocol` and `new URL(u).hostname`.
We model the WHATWG parse for `scheme://[userinfo@]host[:port][/?#]...`
URLs: an invalid scheme, a missing `://`, or an empty host is a parse
failure (the JS code catches the throw). -/

/-- A valid URL scheme: a letter followed by letters/digits/`+`/`-`/`.`. -/
def validScheme (s : List Char) : Bool :=
  match s with
  | [] => false
  | c :: cs => c.isAlpha && cs.all (fun d => d.isAlphanum || d == '+' || d == '-' || d == '.')

/-- Authority after the last `@` (userinfo is everything up to the last `@`). -/
def afterLastAt (l : List Char) : List Char :=
  match l.reverse.findIdx? (fun c => c == '@') with
  | some j => (l.reverse.take j).reverse
  | none => l

/-- Parse a URL into `(protocol-scheme, hostname)`, both lowercased;
`none` models the `new URL(...)` constructor throwing. -/
def urlParse (s : String) : Option (String × String) :=
  match findSub s.data [':', '/', '/'] with
  | none => none
  | some i =>
    let scheme := s.data.take i
    let rest := s.data.drop (i + 3)
    if validScheme scheme then
      let authority := rest.takeWhile (fun c => c != '/' && c != '?' && c != '#')
      let hostport := afterLastAt authority
      let host := hostport.takeWhile (fun c => c != ':')
      if host.isEmpty then none
      else some (String.mk (scheme.map Char.toLower), String.mk (host.map Char.toLower))
    else none

/-- `background.js` `isHttpUrl`. -/
def isHttpUrl (s : String) : Bool :=
  match urlParse s with
  | some (scheme, _) => scheme == "http" || scheme == "https"
  | none => false

/-- `background.js` `hostFromUrl`: lowercased hostname, `""` on parse failure. -/
def hostFromUrl (s : String) : String :=
  match urlParse s with
  | some (_, h) => h
  | none => ""

/-! ## Host list matching (`background.js`) -/

/-- `background.js` `normalizeHostEntry`. -/
def normalizeHostEntry (input : String) : String :=
  let s := trimStr input
  if s == "" then ""
  else if hasSub s "://" then
    match urlParse s with
    | some (_, h) => h
    | none => lowerStr input
  else lowerStr (String.mk (stripDots s.data))

/-- `background.js` `hostMatchesEntry`: `h == e` or `h` ends with `"." + e`. -/
def hostMatchesEntry (host entry : String) : Bool :=
  let h := lowerStr host
  let e := normalizeHostEntry entry
  if h == "" || e == "" then false
  else h == e || endsWithL h.data ("." ++ e).data

/-- `background.js` `isHostInList`: suffix-aware membership. -/
def isHostInList (host : String) (list : List String) : Bool :=
  list.any (fun e => hostMatchesEntry (lowerStr host) e)

/-! ## `utils.js` `isInternal` (word-boundary regexes over the hostname) -/

/-- Regex `\b` immediately before index `i`. -/
def boundaryBefore (l : List Char) (i : Nat) : Bool :=
  match i with
  | 0 => true
  | Nat.succ j =>
    match l[j]? with
    | some c => !isWordChar c
    | none => true

/-- Regex `\b` immediately after index `i - 1` (i.e. at position `i`). -/
def boundaryAfter (l : List Char) (i : Nat) : Bool :=
  match l[i]? with
  | some c => !isWordChar c
  | none => true

/-- Regex `\bw\b` matches somewhere in `s` (for a word `w` made of word chars). -/
def hasWordMatch (s w : String) : Bool :=
  (List.range (s.data.length + 1)).any
    (fun i => substrEq s.data i w.data && boundaryBefore s.data i
      && boundaryAfter s.data (i + w.data.length))

/-- Regex `/\.local\b/` matches somewhere in `s`. -/
def hasDotLocal (s : String) : Bool :=
  (List.range (s.data.length + 1)).any
    (fun i => substrEq s.data i ".local".data && boundaryAfter s.data (i + 6))

/-- `utils.js` `isInternal`: hostname contains `corp`/`intranet`/`internal` as a
word, or `.local` at a word boundary; `false` when URL parsing throws. -/
def isInternal (url : String) : Bool :=
  match urlParse url with
  | some (_, h) =>
    hasWordMatch h "corp" || hasWordMatch h "intranet" || hasWordMatch h "internal"
      || hasDotLocal h
  | none => false

/-! ## Data model -/

/-- Sensitive-field counters as produced by the detector (`{password,email,credit,id}`). -/
structure SensCounts where
  password : Int
  email : Int
  credit : Int
  id : Int
deriving DecidableEq, Repr

/-- All-zero sensitive-field counters (`sensitiveFields: {}` in the domain paths). -/
def zeroCounts : SensCounts := ⟨0, 0, 0, 0⟩

/-- `profile.sensitiveFieldWeights`. -/
structure SensWeights where
  password : Int
  email : Int
  credit : Int
  id : Int
deriving DecidableEq, Repr

/-- A policy profile (see the Policy Store schema). Missing numeric fields are `0`,
missing strings are `""`, missing lists are `[]`. -/
structure Profile where
  id : String
  name : String
  allowList : List String
  blockList : List String
  trackUsers : String
  trackPrompts : String
  requireAdminPinAboveThreshold : Bool
  riskThreshold : Int
  sensitiveFieldWeights : SensWeights
  aiOnPageWeight : Int
  aiDomainWeight : Int
  internalSiteWeight : Int
deriving DecidableEq, Repr

/-- The persisted rules document. -/
structure Rules where
  selectedProfileId : String
  profiles : List Profile
  adminPin : String
deriving DecidableEq, Repr

/-- Classification context, constructed per decision. -/
structure Ctx where
  isAiDomain : Bool
  aiUiSignals : List String
  sensitiveFields : SensCounts
  isInternalSite : Bool
  blocklisted : Bool
deriving DecidableEq, Repr

/-- `utils.js` `computeRiskScore`: weighted sum of present signals,
clamped from above by `Math.min(100, score)`. -/
def computeRiskScore (ctx : Ctx) (profile : Profile) : Int :=
  let sw := profile.sensitiveFieldWeights
  let score0 : Int := 0
  let score1 := if ctx.isAiDomain then score0 + profile.aiDomainWeight else score0
  let score2 := if ctx.aiUiSignals.length > 0 then score1 + profile.aiOnPageWeight else score1
  let score3 := if ctx.isInternalSite then score2 + profile.internalSiteWeight else score2
  let score4 := if ctx.sensitiveFields.password > 0 then score3 + sw.password else score3
  let score5 := if ctx.sensitiveFields.email > 0 then score4 + sw.email else score4
  let score6 := if ctx.sensitiveFields.credit > 0 then score5 + sw.credit else score5
  let score7 := if ctx.sensitiveFields.id > 0 then score6 + sw.id else score6
  min 100 score7

/-! ## Engine state (`background.js` service-worker globals) -/

/-- `lastOpenMap` / `consentMap`: JS `Map` keyed by `` `${tabId}|${host}` ``,
modelled as an association list with `Map.set` replace-or-append semantics. -/
def mapGet (m : List (String × Nat)) (k : String) : Option Nat :=
  (m.find? (fun e => e.1 == k)).map (fun e => e.2)

/-- JS `Map.set`: replace in place if the key exists, else append. -/
def mapSet (m : List (String × Nat)) (k : String) (v : Nat) : List (String × Nat) :=
  if m.any (fun e => e.1 == k) then
    m.map (fun e => if e.1 == k then (k, v) else e)
  else m ++ [(k, v)]

/-- The dedup key `` `${tabId}|${host}` ``. -/
def dedupKey (tabId : Int) (host : String) : String := toString tabId ++ "|" ++ host

/-- `OPEN_COOLDOWN_MS = 5000`. -/
def OPEN_COOLDOWN_MS : Nat := 5000

/-- `CONSENT_TTL_MS = 10 * 60 * 1000`. -/
def CONSENT_TTL_MS : Nat := 10 * 60 * 1000

/-- The service worker's mutable globals: the two dedup/consent maps and the
cached rules document (`rulesCache`; `none` models `null`). -/
structure EngineState where
  lastOpenMap : List (String × Nat)
  consentMap : List (String × Nat)
  rulesCache : Option Rules
deriving DecidableEq, Repr

/-- `background.js` `getActiveProfileSync`. -/
def getActiveProfileSync (rulesObj : Option Rules) : Option Profile :=
  let selectedId := jsOrStr (match rulesObj with
    | some r => r.selectedProfileId
    | none => "") "confirm"
  match rulesObj with
  | none => none
  | some r =>
    match r.profiles.find? (fun p => p.id == selectedId) with
    | some p => some p
    | none => r.profiles.head?

/-- `rulesCache` after `const { rules } = await getLocal(["rules"]); if (rules) rulesCache = rules;`. -/
def updCache (s : EngineState) (storageRules : Option Rules) : Option Rules :=
  match storageRules with
  | some r => some r
  | none => s.rulesCache

/-- `background.js` `shouldPromptForProfile`: the `"allow"` profile is silent
unless the host is blocklisted; every other profile prompts. -/
def shouldPromptForProfile (profile : Option Profile) (isBlocklisted : Bool) : Bool :=
  match profile with
  | none => true
  | some p => if p.id == "allow" then isBlocklisted else true

/-- `background.js` `shouldOpenRouter`: the sole admission point for opening a
prompt. `tabId = none` models `null`/`undefined`. Returns the decision and
the (possibly) updated state. -/
def shouldOpenRouter (s : EngineState) (tabId : Option Int) (host : String) (now : Nat) :
    Bool × EngineState :=
  match tabId with
  | none => (false, s)
  | some tid =>
    if host = "" then (false, s)
    else
      let key := dedupKey tid host
      let cont : Bool × EngineState :=
        let last := (mapGet s.lastOpenMap key).getD 0
        if now - last < OPEN_COOLDOWN_MS then (false, s)
        else (true, { s with lastOpenMap := mapSet s.lastOpenMap key now })
      match mapGet s.consentMap key with
      | some allowedUntil => if now < allowedUntil then (false, s) else cont
      | none => cont

/-! ## Messages, directives and log entries -/

/-- The `OPEN_ROUTER` directive payload. -/
structure Directive where
  reason : String
  context : Ctx
  risk : Int
  profileId : String
deriving DecidableEq, Repr

/-- A log entry; `appendLog` adds `ts`/`userRole`/`userId` metadata on top of
these caller-provided fields, which we omit (the claims are about the
caller-provided fields). Absent fields are `none`. -/
structure LogEntry where
  kind : String
  risk : Option Int := none
  host : Option String := none
  tabUrl : Option String := none
  pageUrl : Option String := none
  profileId : Option String := none
  blocked : Option Bool := none
  blocklisted : Option Bool := none
  signals : Option (List String) := none
  sensitive : Option SensCounts := none
  triggeredBy : Option String := none
  decision : Option String := none
  reason : Option String := none
  pinVerified : Option Bool := none
  mode : Option String := none
  length : Option Nat := none
  text : Option String := none
  hash : Option String := none
deriving DecidableEq, Repr

/-- Result of one engine trigger: new state, at most one directive sent to the
page, and the appended log entries. -/
structure StepResult where
  state : EngineState
  directive : Option Directive
  logs : List LogEntry
deriving Repr

/-- A browser tab as seen by the engine. -/
structure Tab where
  id : Int
  url : String
deriving DecidableEq, Repr

/-! ## Trigger path 1: `chrome.tabs.onUpdated` (domain detection) -/

/-- The `chrome.tabs.onUpdated` listener body. `statusComplete` is
`changeInfo.status === "complete"`; `aiDomains` is `aiDomainsCache`;
`storageRules` is the value read by `getLocal(["rules"])`. -/
def handleTabUpdated (s : EngineState) (aiDomains : List String)
    (storageRules : Option Rules) (tab : Tab) (statusComplete : Bool) (now : Nat) :
    StepResult :=
  if !statusComplete || tab.url = "" then ⟨s, none, []⟩
  else if !isHttpUrl tab.url then ⟨s, none, []⟩
  else
    let host := hostFromUrl tab.url
    if !isHostInList host aiDomains then ⟨s, none, []⟩
    else
      let s1 := { s with rulesCache := updCache s storageRules }
      match getActiveProfileSync (updCache s storageRules) with
      | none => ⟨s1, none, []⟩
      | some profile =>
        let allow := isHostInList host profile.allowList
        let block := isHostInList host profile.blockList
        if allow then ⟨s1, none, []⟩
        else
          let ctx : Ctx := ⟨true, [], zeroCounts, isInternal tab.url, block⟩
          let risk := computeRiskScore ctx profile
          let risk := if block then 100 else risk
          if !shouldPromptForProfile (some profile) block then ⟨s1, none, []⟩
          else
            let r := shouldOpenRouter s1 (some tab.id) host now
            if !r.1 then ⟨r.2, none, []⟩
            else
              ⟨r.2,
               some ⟨if block then "This site is blocked by policy" else "AI domain detected",
                     ctx, risk, profile.id⟩,
               [{ kind := "domain_detected", tabUrl := some tab.url, risk := some risk,
                  profileId := some profile.id, host := some host, blocked := some block }]⟩

/-! ## Trigger path 2: `AI_UI_DETECTED` message -/

/-- The `AI_UI_DETECTED` message payload. `pageUrl = ""` models an absent field;
`isAiDomainFromContent = none` models a non-boolean value. -/
structure AiUiMsg where
  pageUrl : String
  signals : List String
  sensitiveFields : SensCounts
  isAiDomainFromContent : Option Bool
deriving DecidableEq, Repr

/-- `msg.pageUrl || sender?.tab?.url || ""`. -/
def effectivePageUrl (msgUrl : String) (senderTab : Option Tab) : String :=
  jsOrStr msgUrl (match senderTab with
    | some t => t.url
    | none => "")

/-- The `AI_UI_DETECTED` branch of the `onMessage` listener. A `senderTab` of
`none` models a message whose sender has no tab: the dedup key then uses
`-1` (`sender?.tab?.id ?? -1`) and the subsequent `sender.tab.id` access
throws, which the surrounding `try` swallows before the directive is sent
or the `ui_detected` entry is logged. -/
def handleAiUiDetected (s : EngineState) (aiDomains : List String)
    (storageRules : Option Rules) (msg : AiUiMsg) (senderTab : Option Tab) (now : Nat) :
    StepResult :=
  let pageUrl := effectivePageUrl msg.pageUrl senderTab
  if !isHttpUrl pageUrl then ⟨s, none, []⟩
  else
    let host := hostFromUrl pageUrl
    let s1 := { s with rulesCache := updCache s storageRules }
    match getActiveProfileSync (updCache s storageRules) with
    | none => ⟨s1, none, []⟩
    | some profile =>
      let allow := isHostInList host profile.allowList
      let block := isHostInList host profile.blockList
      if allow then
        ⟨s1, none, [{ kind := "ui_detected_suppressed", pageUrl := some pageUrl,
                      host := some host }]⟩
      else
        let isAi := match msg.isAiDomainFromContent with
          | some b => b
          | none => isHostInList host aiDomains
        let ctx : Ctx := ⟨isAi, msg.signals, msg.sensitiveFields, isInternal pageUrl, block⟩
        let risk := computeRiskScore ctx profile
        let risk := if block then 100 else risk
        if !shouldPromptForProfile (some profile) block then ⟨s1, none, []⟩
        else
          let dedupTab : Int := match senderTab with
            | some t => t.id
            | none => -1
          let r := shouldOpenRouter s1 (some dedupTab) host now
          if !r.1 then ⟨r.2, none, []⟩
          else
            match senderTab with
            | none => ⟨r.2, none, []⟩
            | some _ =>
              ⟨r.2,
               some ⟨if block then "This site is blocked by policy" else "In-app AI detected",
                     ctx, risk, profile.id⟩,
               [{ kind := "ui_detected", pageUrl := some pageUrl, host := some host,
                  signals := some (msg.signals.take 5), sensitive := some msg.sensitiveFields,
                  risk := some risk, profileId := some profile.id,
                  blocklisted := some block }]⟩

/-! ## `ROUTER_DECISION` handler -/

/-- A `ROUTER_DECISION` message (`redirectedTo = none` when absent). -/
structure DecisionMsg where
  decision : String
  reason : String
  tabUrl : String
  risk : Int
  profileId : String
  pinVerified : Bool
  redirectedTo : Option String := none
deriving DecidableEq, Repr

/-- The `ROUTER_DECISION` branch of the `onMessage` listener: always logs the
decision; opens a 10-minute consent window for `(senderTabId, host)` only on
`"proceed"` (and only when the host parses and the sender has a tab). -/
def handleRouterDecision (s : EngineState) (msg : DecisionMsg) (senderTab : Option Tab)
    (now : Nat) : EngineState × List LogEntry :=
  let log : LogEntry :=
    { kind := "router_decision", decision := some msg.decision, reason := some msg.reason,
      tabUrl := some msg.tabUrl, risk := some msg.risk, profileId := some msg.profileId,
      pinVerified := some msg.pinVerified }
  let s' :=
    if msg.decision = "proceed" then
      let host := hostFromUrl msg.tabUrl
      match senderTab with
      | some t =>
        if host ≠ "" then
          { s with consentMap := mapSet s.consentMap (dedupKey t.id host) (now + CONSENT_TTL_MS) }
        else s
      | none => s
    else s
  (s', [log])

/-! ## `PROMPT_ACTIVITY` handler -/

/-- A `PROMPT_ACTIVITY` message (`text = ""` / `tabUrl = ""` model absent fields). -/
structure PromptMsg where
  text : String
  tabUrl : String
deriving DecidableEq, Repr

/-- JS `String(t).slice(0, 2000)`. -/
def strTake (s : String) (n : Nat) : String := String.mk (s.data.take n)

/-- The `PROMPT_ACTIVITY` branch of the `onMessage` listener. `digest` is the
injected `sha256` primitive. A missing profile makes `profile.trackPrompts`
throw (swallowed by the surrounding `try`), so nothing is logged. -/
def handlePromptActivity (digest : String → String) (s : EngineState)
    (storageRules : Option Rules) (msg : PromptMsg) (senderTab : Option Tab) :
    EngineState × List LogEntry :=
  let pageUrl := effectivePageUrl msg.tabUrl senderTab
  if !isHttpUrl pageUrl then (s, [])
  else
    let s1 := { s with rulesCache := updCache s storageRules }
    match getActiveProfileSync (updCache s storageRules) with
    | none => (s1, [])
    | some profile =>
      let mode := jsOrStr profile.trackPrompts "off"
      let base : LogEntry :=
        { kind := "prompt", mode := some mode, pageUrl := some pageUrl,
          length := some msg.text.length }
      let entry :=
        if mode = "anonymized" && msg.text ≠ "" then { base with hash := some (digest msg.text) }
        else if mode = "full" && msg.text ≠ "" then { base with text := some (strTake msg.text 2000) }
        else base
      (s1, [entry])

/-! ## Policy-change re-evaluation sweep -/

/-- The per-tab body of `forceReevaluateAndPrompt` (each iteration wrapped in
its own `try`, so a missing profile just skips the tab). -/
def reevalTab (aiDomains : List String) (profile : Option Profile) (s : EngineState)
    (t : Tab) (now : Nat) : StepResult :=
  if t.id = 0 || t.url = "" || !isHttpUrl t.url then ⟨s, none, []⟩
  else
    let host := hostFromUrl t.url
    if host = "" || !isHostInList host aiDomains then ⟨s, none, []⟩
    else
      match profile with
      | none => ⟨s, none, []⟩
      | some p =>
        let allow := isHostInList host p.allowList
        let block := isHostInList host p.blockList
        if allow then ⟨s, none, []⟩
        else
          let ctx : Ctx := ⟨true, [], zeroCounts, isInternal t.url, block⟩
          let risk := computeRiskScore ctx p
          let risk := if block then 100 else risk
          if !shouldPromptForProfile (some p) block then ⟨s, none, []⟩
          else
            let r := shouldOpenRouter s (some t.id) host now
            if !r.1 then ⟨r.2, none, []⟩
            else
              ⟨r.2,
               some ⟨if block then "This site is blocked by policy" else "AI domain detected",
                     ctx, risk, p.id⟩,
               [{ kind := "policy_reprompt", tabUrl := some t.url, risk := some risk,
                  profileId := some p.id, host := some host,
                  triggeredBy := some "RULES_UPDATED" }]⟩

/-- One sweep iteration: thread the engine state through `reevalTab` and
accumulate the directive/log outputs. -/
def reevalFold (aiDomains : List String) (profile : Option Profile) (now : Nat)
    (acc : EngineState × List Directive × List LogEntry) (t : Tab) :
    EngineState × List Directive × List LogEntry :=
  let r := reevalTab aiDomains profile acc.1 t now
  (r.state, acc.2.1 ++ r.directive.toList, acc.2.2 ++ r.logs)

/-- `background.js` `forceReevaluateAndPrompt`: refresh `rulesCache` from
storage, resolve the active profile once, then sweep every tab through the
same classify/gate/dedup pipeline, accumulating directives and log entries. -/
def forceReevaluateAndPrompt (s : EngineState) (aiDomains : List String)
    (storageRules : Option Rules) (tabs : List Tab) (now : Nat) :
    EngineState × List Directive × List LogEntry :=
  let s1 := { s with rulesCache := updCache s storageRules }
  let profile := getActiveProfileSync (updCache s storageRules)
  tabs.foldl (reevalFold aiDomains profile now) (s1, [], [])

/-- The `changes.rules` branch of the `chrome.storage.onChanged` listener:
refresh `rulesCache` from `newValue` (a falsy `newValue` keeps the old cache),
unconditionally clear both the cooldown and the consent map, then run the
re-evaluation sweep over the open tabs. -/
def handleRulesChanged (s : EngineState) (newValue : Option Rules)
    (aiDomains : List String) (storageRules : Option Rules) (tabs : List Tab) (now : Nat) :
    EngineState × List Directive × List LogEntry :=
  let s1 : EngineState :=
    { rulesCache := (match newValue with
        | some r => some r
        | none => s.rulesCache),
      lastOpenMap := [],
      consentMap := [] }
  forceReevaluateAndPrompt s1 aiDomains storageRules tabs now

/-! ## Router state machine (`content.js` `renderRouter`)

The modal's observable page state: whether the overlay (the prompt) and the
blocking shield are attached to the document, the page-local suppression flag
`window.__AIPG_SUPPRESS_ROUTER__`, the resolved PIN-required mode, the typed
PIN field, the "always allow/block" checkboxes, whether a rejection `alert`
was raised, and the `ROUTER_DECISION` messages sent to the engine. -/

structure RouterState where
  overlayOpen : Bool
  shieldOpen : Bool
  suppress : Bool
  pinRequired : Bool
  pinField : String
  allowChecked : Bool
  blockChecked : Bool
  alerted : Bool
  reasonText : String
  sent : List DecisionMsg
deriving DecidableEq, Repr

/-- The router world: the page state plus the persisted rules document the
handlers read (`chrome.storage.local.get(["rules"], ...)`) and write (the
"always allow/block" checkbox mutation). -/
structure RouterWorld where
  st : RouterState
  rules : Option Rules
deriving DecidableEq, Repr

/-- `content.js`: `profile?.requireAdminPinAboveThreshold && (risk >= (profile.riskThreshold || 100))`. -/
def computePinRequired (profile : Option Profile) (risk : Int) : Bool :=
  match profile with
  | some p => p.requireAdminPinAboveThreshold && decide (jsOrInt p.riskThreshold 100 ≤ risk)
  | none => false

/-- Opening the router on an `OPEN_ROUTER` directive: overlay attached,
suppression raised, PIN-required mode resolved from the `GET_PROFILE` reply. -/
def renderRouterOpen (payload : Directive) (profile : Option Profile) : RouterState :=
  { overlayOpen := true, shieldOpen := false, suppress := true,
    pinRequired := computePinRequired profile payload.risk,
    pinField := "", allowChecked := false, blockChecked := false, alerted := false,
    reasonText := jsOrStr payload.reason "AI activity detected", sent := [] }

/-- The "always allow/block" checkbox side effect inside `sendDecision`:
append the page host to the selected profile's allow/block list
(if a checkbox is ticked and the profile exists). -/
def applyAlwaysLists (rules : Option Rules) (host : String)
    (allowChecked blockChecked : Bool) : Option Rules :=
  if allowChecked || blockChecked then
    match rules with
    | none => none
    | some r =>
      let selectedId := jsOrStr r.selectedProfileId "confirm"
      match r.profiles.findIdx? (fun p => p.id == selectedId) with
      | none => some r
      | some idx =>
        some { r with profiles := r.profiles.mapIdx (fun i p =>
          if i = idx then
            let p := if allowChecked && !p.allowList.contains host then
              { p with allowList := p.allowList ++ [host] } else p
            if blockChecked && !p.blockList.contains host then
              { p with blockList := p.blockList ++ [host] } else p
          else p) }
  else rules

/-- `content.js` `sendDecision(choice, pinVerified)`: keep suppression on,
apply the checkbox mutations, and send the `ROUTER_DECISION` message. -/
def sendDecision (w : RouterWorld) (pageHref : String) (risk : Int) (profileId : String)
    (choice : String) (pinVerified : Bool) : RouterWorld :=
  let msg : DecisionMsg :=
    { decision := choice, reason := w.st.reasonText, tabUrl := pageHref, risk := risk,
      profileId := profileId, pinVerified := pinVerified }
  { st := { w.st with suppress := true, sent := w.st.sent ++ [msg] },
    rules := applyAlwaysLists w.rules (hostFromUrl pageHref) w.st.allowChecked w.st.blockChecked }

/-- `content.js` `showBlockingShield`: attach the full-viewport shield and drop
page-local suppression (so a later trigger can reopen the router). -/
def showBlockingShield (st : RouterState) : RouterState :=
  { st with shieldOpen := true, suppress := false }

/-- `close()`: remove the overlay. -/
def closeOverlay (st : RouterState) : RouterState := { st with overlayOpen := false }

/-- The shield's `Return` button: remove the shield, nothing else. -/
def shieldReturnClick (st : RouterState) : RouterState := { st with shieldOpen := false }

/-- The Cancel button: in PIN-required mode show the blocking shield and keep
the prompt (no decision reported); otherwise report `cancel` and close. -/
def clickCancel (w : RouterWorld) (pageHref : String) (risk : Int) (profileId : String) :
    RouterWorld :=
  if w.st.pinRequired then { w with st := showBlockingShield w.st }
  else
    let w1 := sendDecision w pageHref risk profileId "cancel" false
    { w1 with st := closeOverlay w1.st }

/-- The Proceed button: in PIN-required mode the typed PIN must exactly equal
the stored `rules.adminPin` (an empty stored PIN always rejects); a mismatch
raises the `alert` and leaves the prompt open; a match reports
`{proceed, pinVerified: true}` and closes. Without PIN-required mode,
report `{proceed, pinVerified: false}` and close. -/
def clickProceed (w : RouterWorld) (pageHref : String) (risk : Int) (profileId : String) :
    RouterWorld :=
  if w.st.pinRequired then
    let entered := w.st.pinField
    let adminPin := match w.rules with
      | some r => r.adminPin
      | none => ""
    if adminPin = "" || entered ≠ adminPin then { w with st := { w.st with alerted := true } }
    else
      let w1 := sendDecision w pageHref risk profileId "proceed" true
      { w1 with st := closeOverlay w1.st }
  else
    let w1 := sendDecision w pageHref risk profileId "proceed" false
    { w1 with st := closeOverlay w1.st }

/-! ## Concrete fixtures (used by witnesses and counterexamples) -/

/-- A strict profile with `evil.com` blocklisted and `claude.ai` allowlisted. -/
def profStrict : Profile :=
  { id := "strict", name := "Strict", allowList := ["claude.ai"], blockList := ["evil.com"],
    trackUsers := "off", trackPrompts := "off", requireAdminPinAboveThreshold := true,
    riskThreshold := 70, sensitiveFieldWeights := ⟨25, 15, 30, 20⟩, aiOnPageWeight := 25,
    aiDomainWeight := 40, internalSiteWeight := 20 }

/-- Rules selecting `profStrict`, admin PIN `1234`. -/
def rulesStrict : Rules :=
  { selectedProfileId := "strict", profiles := [profStrict], adminPin := "1234" }

/-- A confirm profile with prompt tracking off. -/
def profOff : Profile :=
  { id := "confirm", name := "Confirm", allowList := [], blockList := [],
    trackUsers := "off", trackPrompts := "off", requireAdminPinAboveThreshold := false,
    riskThreshold := 70, sensitiveFieldWeights := ⟨25, 15, 30, 20⟩, aiOnPageWeight := 25,
    aiDomainWeight := 40, internalSiteWeight := 20 }

/-- Rules selecting `profOff`. -/
def rulesOff : Rules :=
  { selectedProfileId := "confirm", profiles := [profOff], adminPin := "" }

/-- The empty engine state. -/
def sEmpty : EngineState := { lastOpenMap := [], consentMap := [], rulesCache := none }

/-! ## Map lemmas -/

/-- After `Map.set m k v`, looking up `k` yields `v`. -/
theorem mapGet_mapSet_self (m : List (String × Nat)) (k : String) (v : Nat) :
    mapGet (mapSet m k v) k = some v := by
  induction m with
  | nil => simp [mapSet, mapGet]
  | cons e t ih =>
    by_cases he : e.1 = k
    · simp [mapSet, mapGet, he]
    · have hek : (e.1 == k) = false := by simpa using he
      by_cases ht : t.any (fun e => e.1 == k)
      all_goals
        simp only [mapSet, List.any_cons, hek, Bool.false_or, ht, if_true, if_false,
          List.map_cons, List.cons_append, mapGet, List.find?_cons] at ih ⊢
      · simpa [mapSet, ht, mapGet, hek] using ih
      · simpa [mapSet, ht, mapGet, hek] using ih

/-- Every entry of `Map.set m k v` is an old entry or the new `(k, v)`. -/
theorem mem_mapSet (m : List (String × Nat)) (k : String) (v : Nat) (e : String × Nat)
    (he : e ∈ mapSet m k v) : e ∈ m ∨ e = (k, v) := by
  unfold mapSet at he
  split at he
  · rcases List.mem_map.mp he with ⟨a, ha, hae⟩
    by_cases h : a.1 = k
    · right; simp [h] at hae; exact hae.symm
    · left
      have : (if (a.1 == k) = true then (k, v) else a) = a := by simp [h]
      rw [this] at hae
      exact hae ▸ ha
  · rcases List.mem_append.mp he with h | h
    · exact Or.inl h
    · right; simpa using h

/-- `shouldOpenRouter` never touches the consent map. -/
theorem shouldOpenRouter_consentMap (s : EngineState) (tabId : Option Int) (host : String)
    (now : Nat) : (shouldOpenRouter s tabId host now).2.consentMap = s.consentMap := by
  unfold shouldOpenRouter
  cases tabId with
  | none => rfl
  | some tid =>
    dsimp only
    split
    · rfl
    · split
      · split
        · rfl
        · split <;> rfl
      · split <;> rfl

/-- If neither state has an unexpired consent window for the key and both have
the same last-open map, `shouldOpenRouter` admits in one iff it admits in the
other: admission then depends only on the cooldown. -/
theorem shouldOpenRouter_fst_congr (s s' : EngineState) (tid : Int) (host : String)
    (now' : Nat) (hlast : s'.lastOpenMap = s.lastOpenMap)
    (h1 : ∀ u, mapGet s.consentMap (dedupKey tid host) = some u → ¬ now' < u)
    (h2 : ∀ u, mapGet s'.consentMap (dedupKey tid host) = some u → ¬ now' < u) :
    (shouldOpenRouter s (some tid) host now').1 = (shouldOpenRouter s' (some tid) host now').1 := by
  by_cases hh : host = ""
  · simp [shouldOpenRouter, hh]
  · cases hm : mapGet s.consentMap (dedupKey tid host) with
    | none =>
      cases hm' : mapGet s'.consentMap (dedupKey tid host) with
      | none => simp [shouldOpenRouter, hh, hm, hm', hlast, apply_ite]
      | some u => simp [shouldOpenRouter, hh, hm, hm', h2 u hm', hlast, apply_ite]
    | some u =>
      cases hm' : mapGet s'.consentMap (dedupKey tid host) with
      | none => simp [shouldOpenRouter, hh, hm, hm', h1 u hm, hlast, apply_ite]
      | some u' =>
        simp [shouldOpenRouter, hh, hm, hm', h1 u hm, h2 u' hm', hlast, apply_ite]

/-- `shouldOpenRouter` never touches the rules cache. -/
theorem shouldOpenRouter_rulesCache (s : EngineState) (tabId : Option Int) (host : String)
    (now : Nat) : (shouldOpenRouter s tabId host now).2.rulesCache = s.rulesCache := by
  unfold shouldOpenRouter
  cases tabId with
  | none => rfl
  | some tid =>
    dsimp only
    split
    · rfl
    · split
      · split
        · rfl
        · split <;> rfl
      · split <;> rfl

/-- If every entry of the last-open map is stamped `now`, this persists
through `shouldOpenRouter` (the only value it ever writes is `now`). -/
theorem shouldOpenRouter_lastOpen_values (s : EngineState) (tabId : Option Int)
    (host : String) (now : Nat) (hs : ∀ e ∈ s.lastOpenMap, e.2 = now) :
    ∀ e ∈ (shouldOpenRouter s tabId host now).2.lastOpenMap, e.2 = now := by
  intro e he
  cases tabId with
  | none => exact hs e he
  | some tid =>
    unfold shouldOpenRouter at he
    dsimp only at he
    split at he
    · exact hs e he
    · split at he
      · split at he
        · exact hs e he
        · split at he
          · exact hs e he
          · rcases mem_mapSet _ _ _ _ he with h | h
            · exact hs e h
            · rw [h]
      · split at he
        · exact hs e he
        · rcases mem_mapSet _ _ _ _ he with h | h
          · exact hs e h
          · rw [h]

/-- The sweep body never touches the consent map. -/
theorem reevalTab_consentMap (aiDomains : List String) (profile : Option Profile)
    (s : EngineState) (t : Tab) (now : Nat) :
    (reevalTab aiDomains profile s t now).state.consentMap = s.consentMap := by
  unfold reevalTab
  dsimp only
  repeat' split
  all_goals simp [shouldOpenRouter_consentMap]

/-- The sweep body writes only `now`-stamped last-open entries. -/
theorem reevalTab_lastOpen_values (aiDomains : List String) (profile : Option Profile)
    (s : EngineState) (t : Tab) (now : Nat) (hs : ∀ e ∈ s.lastOpenMap, e.2 = now) :
    ∀ e ∈ (reevalTab aiDomains profile s t now).state.lastOpenMap, e.2 = now := by
  intro e he
  unfold reevalTab at he
  dsimp only at he
  repeat' split at he
  all_goals
    first
      | exact hs e he
      | exact shouldOpenRouter_lastOpen_values _ _ _ _ hs e he

/-- The whole sweep keeps the consent map and writes only `now`-stamped
last-open entries. -/
theorem foldl_reevalFold_inv (aiDomains : List String) (profile : Option Profile)
    (now : Nat) (tabs : List Tab) (acc : EngineState × List Directive × List LogEntry) :
    (tabs.foldl (reevalFold aiDomains profile now) acc).1.consentMap = acc.1.consentMap ∧
    ((∀ e ∈ acc.1.lastOpenMap, e.2 = now) →
      ∀ e ∈ (tabs.foldl (reevalFold aiDomains profile now) acc).1.lastOpenMap, e.2 = now) := by
  induction tabs generalizing acc with
  | nil => exact ⟨rfl, fun h => h⟩
  | cons t ts ih =>
    simp only [List.foldl_cons]
    refine ⟨?_, ?_⟩
    · rw [(ih _).1]
      exact reevalTab_consentMap aiDomains profile acc.1 t now
    · intro h
      exact (ih _).2 (reevalTab_lastOpen_values aiDomains profile acc.1 t now h)

/-! ## Claim C10 -/

/-- C10: for every call where `tabId` is `null`/`undefined` (`none`) or the host
is the empty string, `shouldOpenRouter` returns `false` and leaves both the
last-open map and the consent map (the whole state) unchanged. -/
theorem shouldOpenRouter_null_or_empty_guard
    (s : EngineState) (tabId : Option Int) (host : String) (now : Nat)
    (h : tabId = none ∨ host = "") :
    shouldOpenRouter s tabId host now = (false, s) := by
  rcases h with h | h
  · subst h; rfl
  · subst h; cases tabId <;> simp [shouldOpenRouter]

/-- C10 witness: concrete degenerate calls. -/
theorem shouldOpenRouter_null_or_empty_guard_witness :
    ((none : Option Int) = none ∨ "a.com" = "") ∧
      shouldOpenRouter sEmpty none "a.com" 12345 = (false, sEmpty) ∧
      shouldOpenRouter sEmpty (some 7) "" 12345 = (false, sEmpty) :=
  ⟨Or.inl rfl,
   shouldOpenRouter_null_or_empty_guard sEmpty none "a.com" 12345 (Or.inl rfl),
   shouldOpenRouter_null_or_empty_guard sEmpty (some 7) "" 12345 (Or.inr rfl)⟩

/-! ## Claim C6 -/

/-- C6: `shouldOpenRouter` for a key `(tabId, host)` returns `false` when an
unexpired consent window exists; returns `false` when the last recorded open
(defaulting to `0`) is less than the 5-second cooldown before `now`; otherwise
records `now` as the key's new last-open and returns `true` — and consequently
two triggers for the same key within the cooldown window win admission at most
once. -/
theorem shouldOpenRouter_admission_spec
    (s : EngineState) (tid : Int) (host : String) (now : Nat) (hhost : host ≠ "") :
    ((∃ u, mapGet s.consentMap (dedupKey tid host) = some u ∧ now < u) →
      shouldOpenRouter s (some tid) host now = (false, s)) ∧
    ((∀ u, mapGet s.consentMap (dedupKey tid host) = some u → ¬ now < u) →
      now - (mapGet s.lastOpenMap (dedupKey tid host)).getD 0 < OPEN_COOLDOWN_MS →
      shouldOpenRouter s (some tid) host now = (false, s)) ∧
    ((∀ u, mapGet s.consentMap (dedupKey tid host) = some u → ¬ now < u) →
      ¬ now - (mapGet s.lastOpenMap (dedupKey tid host)).getD 0 < OPEN_COOLDOWN_MS →
      shouldOpenRouter s (some tid) host now =
        (true, { s with lastOpenMap := mapSet s.lastOpenMap (dedupKey tid host) now })) ∧
    (∀ now', (shouldOpenRouter s (some tid) host now).1 = true →
      now' < now + OPEN_COOLDOWN_MS →
      (shouldOpenRouter (shouldOpenRouter s (some tid) host now).2 (some tid) host now').1
        = false) := by
  refine ⟨?_, ?_, ?_, ?_⟩
  · rintro ⟨u, hu, hlt⟩
    simp [shouldOpenRouter, hhost, hu, hlt]
  · intro hc hcool
    cases hm : mapGet s.consentMap (dedupKey tid host) with
    | none => simp [shouldOpenRouter, hhost, hm, hcool]
    | some u => simp [shouldOpenRouter, hhost, hm, hc u hm, hcool]
  · intro hc hcool
    cases hm : mapGet s.consentMap (dedupKey tid host) with
    | none => simp [shouldOpenRouter, hhost, hm, hcool]
    | some u => simp [shouldOpenRouter, hhost, hm, hc u hm, hcool]
  · intro now' htrue hlt
    have hcool1 : ¬ now - (mapGet s.lastOpenMap (dedupKey tid host)).getD 0 < OPEN_COOLDOWN_MS := by
      by_contra hcool
      cases hm : mapGet s.consentMap (dedupKey tid host) with
      | none => simp [shouldOpenRouter, hhost, hm, hcool] at htrue
      | some u =>
        by_cases hu : now < u
        · simp [shouldOpenRouter, hhost, hm, hu] at htrue
        · simp [shouldOpenRouter, hhost, hm, hu, hcool] at htrue
    have hstate : (shouldOpenRouter s (some tid) host now).2 =
        { s with lastOpenMap := mapSet s.lastOpenMap (dedupKey tid host) now } := by
      cases hm : mapGet s.consentMap (dedupKey tid host) with
      | none => simp [shouldOpenRouter, hhost, hm, hcool1]
      | some u =>
        by_cases hu : now < u
        · simp [shouldOpenRouter, hhost, hm, hu] at htrue
        · simp [shouldOpenRouter, hhost, hm, hu, hcool1]
    rw [hstate]
    have hget : mapGet (mapSet s.lastOpenMap (dedupKey tid host) now) (dedupKey tid host)
        = some now := mapGet_mapSet_self _ _ _
    have hcool2 : now' - now < OPEN_COOLDOWN_MS := by
      simp only [OPEN_COOLDOWN_MS] at hlt ⊢; omega
    cases hm : mapGet s.consentMap (dedupKey tid host) with
    | none => simp [shouldOpenRouter, hhost, hm, hget, hcool2]
    | some u =>
      by_cases hu : now' < u
      · simp [shouldOpenRouter, hhost, hm, hu]
      · simp [shouldOpenRouter, hhost, hm, hu, hget, hcool2]

/-- C6 witness: fresh key at `now = 100000` admits and records; a second trigger
2 seconds later is refused. -/
theorem shouldOpenRouter_admission_spec_witness :
    "a.com" ≠ "" ∧
    (shouldOpenRouter sEmpty (some 7) "a.com" 100000 =
      (true, { sEmpty with lastOpenMap := mapSet sEmpty.lastOpenMap (dedupKey 7 "a.com") 100000 })) ∧
    ((shouldOpenRouter (shouldOpenRouter sEmpty (some 7) "a.com" 100000).2
        (some 7) "a.com" 102000).1 = false) := by
  have h := shouldOpenRouter_admission_spec sEmpty 7 "a.com" 100000 (by decide)
  exact ⟨by decide,
    h.2.2.1 (by intro u hu; simp [sEmpty, mapGet] at hu) (by decide),
    h.2.2.2 102000 (by decide) (by decide)⟩

/-! ## Claim C7 -/

/-- C7: on a `ROUTER_DECISION` message (from a sender with a tab, for a URL with
a parseable host), a consent window for `(tabId, host)` is opened iff the
decision is `"proceed"`, with expiry exactly `now + CONSENT_TTL_MS`
(10 minutes); `"cancel"`/`"redirect"` leave the engine state untouched; and at
or after expiry the consent window no longer influences admission, so the next
trigger is re-evaluated from scratch. -/
theorem routerDecision_consent_iff
    (s : EngineState) (msg : DecisionMsg) (t : Tab) (now : Nat)
    (hhost : hostFromUrl msg.tabUrl ≠ "") :
    (msg.decision = "proceed" →
      mapGet (handleRouterDecision s msg (some t) now).1.consentMap
        (dedupKey t.id (hostFromUrl msg.tabUrl)) = some (now + CONSENT_TTL_MS)) ∧
    (msg.decision ≠ "proceed" → (handleRouterDecision s msg (some t) now).1 = s) ∧
    (msg.decision = "proceed" → ∀ now', now + CONSENT_TTL_MS ≤ now' →
      (shouldOpenRouter (handleRouterDecision s msg (some t) now).1
          (some t.id) (hostFromUrl msg.tabUrl) now').1
        = (shouldOpenRouter
            { (handleRouterDecision s msg (some t) now).1 with consentMap := [] }
            (some t.id) (hostFromUrl msg.tabUrl) now').1) := by
  refine ⟨?_, ?_, ?_⟩
  · intro hd
    simp only [handleRouterDecision, hd, if_true, hhost, if_pos, ite_not]
    simp [hhost, mapGet_mapSet_self]
  · intro hd
    simp [handleRouterDecision, hd]
  · intro hd now' hle
    have hget : mapGet (handleRouterDecision s msg (some t) now).1.consentMap
        (dedupKey t.id (hostFromUrl msg.tabUrl)) = some (now + CONSENT_TTL_MS) := by
      simp only [handleRouterDecision, hd, if_true]
      simp [hhost, mapGet_mapSet_self]
    have hnu : ¬ now' < now + CONSENT_TTL_MS := by omega
    exact shouldOpenRouter_fst_congr _ _ _ _ _ rfl
      (by intro u hu; rw [hget] at hu; have h := Option.some.inj hu; omega)
      (by intro u hu; simp [mapGet] at hu)

/-- C7 witness: a concrete `proceed` decision opens a 10-minute window; a
concrete `cancel` leaves the state unchanged; a trigger at expiry ignores the
window. -/
theorem routerDecision_consent_iff_witness :
    hostFromUrl "https://a.com/x" ≠ "" ∧
    mapGet (handleRouterDecision sEmpty ⟨"proceed", "r", "https://a.com/x", 85, "strict", true, none⟩
        (some ⟨7, "https://a.com/x"⟩) 100000).1.consentMap (dedupKey 7 "a.com") = some 700000 ∧
    (handleRouterDecision sEmpty ⟨"cancel", "r", "https://a.com/x", 85, "strict", false, none⟩
        (some ⟨7, "https://a.com/x"⟩) 100000).1 = sEmpty ∧
    ((shouldOpenRouter (handleRouterDecision sEmpty
          ⟨"proceed", "r", "https://a.com/x", 85, "strict", true, none⟩
          (some ⟨7, "https://a.com/x"⟩) 100000).1 (some 7) "a.com" 700000).1
      = (shouldOpenRouter { (handleRouterDecision sEmpty
          ⟨"proceed", "r", "https://a.com/x", 85, "strict", true, none⟩
          (some ⟨7, "https://a.com/x"⟩) 100000).1 with consentMap := [] }
          (some 7) "a.com" 700000).1) := by
  have h1 := routerDecision_consent_iff sEmpty
    ⟨"proceed", "r", "https://a.com/x", 85, "strict", true, none⟩ ⟨7, "https://a.com/x"⟩ 100000
    (by decide)
  have h2 := routerDecision_consent_iff sEmpty
    ⟨"cancel", "r", "https://a.com/x", 85, "strict", false, none⟩ ⟨7, "https://a.com/x"⟩ 100000
    (by decide)
  refine ⟨by decide, ?_, h2.2.1 (by decide), ?_⟩
  · have := h1.1 rfl
    simpa using this
  · have := h1.2.2 rfl 700000 (by decide)
    simpa using this

/-! ## Claim C5 -/

/-- A profile whose only nonzero weight is a negative `aiDomainWeight`. -/
def profNegWeight : Profile :=
  { id := "confirm", name := "Confirm", allowList := [], blockList := [],
    trackUsers := "off", trackPrompts := "off", requireAdminPinAboveThreshold := false,
    riskThreshold := 70, sensitiveFieldWeights := ⟨0, 0, 0, 0⟩, aiOnPageWeight := 0,
    aiDomainWeight := -5, internalSiteWeight := 0 }

/-- A context that is only an AI domain. -/
def ctxAiOnly : Ctx := ⟨true, [], zeroCounts, false, false⟩

/-- C5 counterexample: `Math.min(100, score)` clamps only from above, so a
profile with a negative weight produces a score outside `[0,100]`. -/
theorem computeRiskScore_below_zero :
    computeRiskScore ctxAiOnly profNegWeight = -5 ∧
      ¬ (0 ≤ computeRiskScore ctxAiOnly profNegWeight ∧
         computeRiskScore ctxAiOnly profNegWeight ≤ 100) := by
  decide

set_option maxHeartbeats 1600000 in
/-- C5 (amended): for every context and every profile whose used weights are
non-negative, `computeRiskScore` is an integer in `[0,100]` and equals the sum
of the weighted contributions clamped from above at 100 (the code has no lower
clamp). -/
theorem computeRiskScore_range_of_nonneg (ctx : Ctx) (p : Profile)
    (h1 : 0 ≤ p.aiDomainWeight) (h2 : 0 ≤ p.aiOnPageWeight) (h3 : 0 ≤ p.internalSiteWeight)
    (h4 : 0 ≤ p.sensitiveFieldWeights.password) (h5 : 0 ≤ p.sensitiveFieldWeights.email)
    (h6 : 0 ≤ p.sensitiveFieldWeights.credit) (h7 : 0 ≤ p.sensitiveFieldWeights.id) :
    0 ≤ computeRiskScore ctx p ∧ computeRiskScore ctx p ≤ 100 ∧
    computeRiskScore ctx p = min 100
      ((if ctx.isAiDomain then p.aiDomainWeight else 0)
        + (if ctx.aiUiSignals.length > 0 then p.aiOnPageWeight else 0)
        + (if ctx.isInternalSite then p.internalSiteWeight else 0)
        + (if ctx.sensitiveFields.password > 0 then p.sensitiveFieldWeights.password else 0)
        + (if ctx.sensitiveFields.email > 0 then p.sensitiveFieldWeights.email else 0)
        + (if ctx.sensitiveFields.credit > 0 then p.sensitiveFieldWeights.credit else 0)
        + (if ctx.sensitiveFields.id > 0 then p.sensitiveFieldWeights.id else 0)) := by
  unfold computeRiskScore
  dsimp only
  split_ifs <;> omega

/-- C5 (amended) witness: a concrete all-signals context under `profStrict`. -/
theorem computeRiskScore_range_of_nonneg_witness :
    (0 ≤ profStrict.aiDomainWeight ∧ 0 ≤ profStrict.aiOnPageWeight ∧
     0 ≤ profStrict.internalSiteWeight ∧ 0 ≤ profStrict.sensitiveFieldWeights.password ∧
     0 ≤ profStrict.sensitiveFieldWeights.email ∧ 0 ≤ profStrict.sensitiveFieldWeights.credit ∧
     0 ≤ profStrict.sensitiveFieldWeights.id) ∧
    (0 ≤ computeRiskScore ⟨true, ["sig"], ⟨1, 0, 0, 0⟩, true, false⟩ profStrict ∧
     computeRiskScore ⟨true, ["sig"], ⟨1, 0, 0, 0⟩, true, false⟩ profStrict ≤ 100 ∧
     computeRiskScore ⟨true, ["sig"], ⟨1, 0, 0, 0⟩, true, false⟩ profStrict = min 100
      ((if (true : Bool) then profStrict.aiDomainWeight else 0)
        + (if (["sig"] : List String).length > 0 then profStrict.aiOnPageWeight else 0)
        + (if (true : Bool) then profStrict.internalSiteWeight else 0)
        + (if (1 : Int) > 0 then profStrict.sensitiveFieldWeights.password else 0)
        + (if (0 : Int) > 0 then profStrict.sensitiveFieldWeights.email else 0)
        + (if (0 : Int) > 0 then profStrict.sensitiveFieldWeights.credit else 0)
        + (if (0 : Int) > 0 then profStrict.sensitiveFieldWeights.id else 0))) :=
  ⟨by decide,
   computeRiskScore_range_of_nonneg ⟨true, ["sig"], ⟨1, 0, 0, 0⟩, true, false⟩ profStrict
     (by decide) (by decide) (by decide) (by decide) (by decide) (by decide) (by decide)⟩

/-! ## Claim C4 -/

/-- A fixed digest function standing in for the injected `sha256`. -/
def digestFix (t : String) : String := "digest:" ++ t

/-- A confirm profile with prompt tracking `"anonymized"`. -/
def profAnon : Profile := { profOff with trackPrompts := "anonymized" }

/-- Rules selecting `profAnon`. -/
def rulesAnon : Rules := { selectedProfileId := "confirm", profiles := [profAnon], adminPin := "" }

/-- C4 counterexample: with the active profile's prompt-tracking mode `"off"`,
a `PROMPT_ACTIVITY` message still appends a log entry of kind `"prompt"`
(carrying the mode, page URL and text length), contradicting the claim that no
`"prompt"` entry is appended at all. -/
theorem promptActivity_off_still_logs :
    jsOrStr profOff.trackPrompts "off" = "off" ∧
    getActiveProfileSync (updCache sEmpty (some rulesOff)) = some profOff ∧
    ((handlePromptActivity digestFix sEmpty (some rulesOff)
        ⟨"hello", "https://site.example/a"⟩ none).2.map LogEntry.kind) = ["prompt"] ∧
    ((handlePromptActivity digestFix sEmpty (some rulesOff)
        ⟨"hello", "https://site.example/a"⟩ none).2.map LogEntry.length) = [some 5] := by
  decide

/-- C4 (amended): for every `PROMPT_ACTIVITY` message an entry of kind
`"prompt"` is appended whenever the page URL is http(s) and a profile resolves
(also in `"off"` mode, carrying only mode/page URL/length); in `"off"` mode the
entry carries neither raw text nor a digest; in `"anonymized"` mode it never
carries raw text and, for non-empty text, carries exactly the one-way digest;
raw prompt text (truncated to 2000) appears only when the mode is `"full"`. -/
theorem promptActivity_mode_privacy (digest : String → String) (s : EngineState)
    (storageRules : Option Rules) (msg : PromptMsg) (senderTab : Option Tab) (p : Profile)
    (hp : getActiveProfileSync (updCache s storageRules) = some p) :
    (∀ l ∈ (handlePromptActivity digest s storageRules msg senderTab).2, l.kind = "prompt") ∧
    (isHttpUrl (effectivePageUrl msg.tabUrl senderTab) = true →
      (handlePromptActivity digest s storageRules msg senderTab).2 ≠ []) ∧
    (jsOrStr p.trackPrompts "off" = "off" →
      ∀ l ∈ (handlePromptActivity digest s storageRules msg senderTab).2,
        l.text = none ∧ l.hash = none) ∧
    (jsOrStr p.trackPrompts "off" = "anonymized" →
      ∀ l ∈ (handlePromptActivity digest s storageRules msg senderTab).2,
        l.text = none ∧ (msg.text ≠ "" → l.hash = some (digest msg.text))) ∧
    (∀ l ∈ (handlePromptActivity digest s storageRules msg senderTab).2,
      l.text ≠ none → jsOrStr p.trackPrompts "off" = "full" ∧
        l.text = some (strTake msg.text 2000)) := by
  by_cases hhttp : isHttpUrl (effectivePageUrl msg.tabUrl senderTab)
  · refine ⟨?_, ?_, ?_, ?_, ?_⟩
    · intro l hl
      simp only [handlePromptActivity, hhttp, Bool.not_true, Bool.false_eq_true, if_false,
        hp, List.mem_singleton] at hl
      rw [hl]
      split
      · rfl
      · split <;> rfl
    · intro _
      simp [handlePromptActivity, hhttp, hp]
    · intro hm l hl
      simp only [handlePromptActivity, hhttp, Bool.not_true, Bool.false_eq_true, if_false,
        hp, List.mem_singleton, hm] at hl
      simp only [show ("off" = "anonymized") = False by simp,
        show ("off" = "full") = False by simp, false_and, if_false] at hl
      rw [hl]
      exact ⟨rfl, rfl⟩
    · intro hm l hl
      simp only [handlePromptActivity, hhttp, Bool.not_true, Bool.false_eq_true, if_false,
        hp, List.mem_singleton, hm] at hl
      by_cases htext : msg.text = ""
      · simp only [htext, show ¬ ("" : String) ≠ "" by simp, and_false, if_false,
          show ("anonymized" = "full") = False by simp, false_and] at hl
        rw [hl]
        exact ⟨rfl, fun h => absurd htext h⟩
      · simp only [show ("anonymized" = "anonymized") = True by simp, htext, true_and,
          if_pos, ne_eq, not_false_iff, if_true] at hl
        rw [hl]
        exact ⟨rfl, fun _ => rfl⟩
    · intro l hl
      simp only [handlePromptActivity, hhttp, Bool.not_true, Bool.false_eq_true, if_false,
        hp, List.mem_singleton] at hl
      rw [hl]
      split
      · intro h; exact absurd rfl h
      · split
        · rename_i hc
          intro _
          simp only [Bool.and_eq_true, decide_eq_true_eq] at hc
          exact ⟨hc.1, rfl⟩
        · intro h; exact absurd rfl h
  · have hb : (!isHttpUrl (effectivePageUrl msg.tabUrl senderTab)) = true := by
      simp [hhttp]
    refine ⟨?_, ?_, ?_, ?_, ?_⟩ <;>
      simp_all [handlePromptActivity, hb]

/-- The log entry an `"anonymized"`-mode `PROMPT_ACTIVITY` for `"hello"` appends. -/
def entryAnonHello : LogEntry :=
  { kind := "prompt", mode := some "anonymized", pageUrl := some "https://site.example/a",
    length := some 5, hash := some (digestFix "hello") }

/-- C4 (amended) witness: `"anonymized"` tracking on a concrete message appends
exactly `entryAnonHello` — digest stored, no raw text. -/
theorem promptActivity_mode_privacy_witness :
    getActiveProfileSync (updCache sEmpty (some rulesAnon)) = some profAnon ∧
    jsOrStr profAnon.trackPrompts "off" = "anonymized" ∧
    (handlePromptActivity digestFix sEmpty (some rulesAnon)
        ⟨"hello", "https://site.example/a"⟩ none).2 = [entryAnonHello] ∧
    entryAnonHello.text = none ∧
    entryAnonHello.hash = some (digestFix "hello") := by
  have h := (promptActivity_mode_privacy digestFix sEmpty (some rulesAnon)
    ⟨"hello", "https://site.example/a"⟩ none profAnon (by decide)).2.2.2.1 (by decide)
  exact ⟨by decide, by decide, by decide,
    (h entryAnonHello (by decide)).1,
    (h entryAnonHello (by decide)).2 (by decide)⟩

/-! ## Claim C1 -/

/-- C1: in PIN-required mode (`requireAdminPinAboveThreshold` and risk at or
above the profile's effective threshold), clicking Cancel does not close the
prompt, reports no decision, writes no rules, shows the blocking shield, and
leaving the shield via Return reports no decision either. -/
theorem strictCancel_blocks (w : RouterWorld) (pageHref : String) (risk : Int)
    (profileId : String) (p : Profile)
    (hreq : p.requireAdminPinAboveThreshold = true)
    (hrisk : jsOrInt p.riskThreshold 100 ≤ risk)
    (hpin : w.st.pinRequired = computePinRequired (some p) risk) :
    computePinRequired (some p) risk = true ∧
    (clickCancel w pageHref risk profileId).st.overlayOpen = w.st.overlayOpen ∧
    (clickCancel w pageHref risk profileId).st.sent = w.st.sent ∧
    (clickCancel w pageHref risk profileId).rules = w.rules ∧
    (clickCancel w pageHref risk profileId).st.shieldOpen = true ∧
    (shieldReturnClick (clickCancel w pageHref risk profileId).st).sent = w.st.sent ∧
    (shieldReturnClick (clickCancel w pageHref risk profileId).st).shieldOpen = false := by
  have hc : computePinRequired (some p) risk = true := by
    simp [computePinRequired, hreq, hrisk]
  have hw : w.st.pinRequired = true := hpin.trans hc
  simp [clickCancel, hw, showBlockingShield, shieldReturnClick, hc]

/-- A concrete open router in PIN-required mode (risk 85 ≥ threshold 70). -/
def wStrict : RouterWorld :=
  { st := renderRouterOpen ⟨"AI domain detected", ctxAiOnly, 85, "strict"⟩ (some profStrict),
    rules := some rulesStrict }

/-- C1 witness: the concrete strict router world. -/
theorem strictCancel_blocks_witness :
    profStrict.requireAdminPinAboveThreshold = true ∧
    jsOrInt profStrict.riskThreshold 100 ≤ 85 ∧
    wStrict.st.pinRequired = computePinRequired (some profStrict) 85 ∧
    (computePinRequired (some profStrict) 85 = true ∧
     (clickCancel wStrict "https://chat.example/x" 85 "strict").st.overlayOpen
        = wStrict.st.overlayOpen ∧
     (clickCancel wStrict "https://chat.example/x" 85 "strict").st.sent = wStrict.st.sent ∧
     (clickCancel wStrict "https://chat.example/x" 85 "strict").rules = wStrict.rules ∧
     (clickCancel wStrict "https://chat.example/x" 85 "strict").st.shieldOpen = true ∧
     (shieldReturnClick (clickCancel wStrict "https://chat.example/x" 85 "strict").st).sent
        = wStrict.st.sent ∧
     (shieldReturnClick (clickCancel wStrict "https://chat.example/x" 85 "strict").st).shieldOpen
        = false) :=
  ⟨by decide, by decide, by decide,
   strictCancel_blocks wStrict "https://chat.example/x" 85 "strict" profStrict
     (by decide) (by decide) (by decide)⟩

/-! ## Claim C9 -/

/-- C9: in PIN-required mode, Proceed with a typed PIN different from the
stored admin PIN leaves the prompt open, visibly rejects (the alert), reports
nothing and writes no rules; any reported decision implies the typed PIN
exactly matched and is `{proceed, pinVerified := true}`; and an exact match
against a non-empty stored PIN reports exactly that decision and closes. -/
theorem strictProceed_pin_gate (w : RouterWorld) (pageHref : String) (risk : Int)
    (profileId : String) (hpin : w.st.pinRequired = true) :
    (w.st.pinField ≠ (match w.rules with
        | some r => r.adminPin
        | none => "") →
      (clickProceed w pageHref risk profileId).st.overlayOpen = w.st.overlayOpen ∧
      (clickProceed w pageHref risk profileId).st.sent = w.st.sent ∧
      (clickProceed w pageHref risk profileId).rules = w.rules ∧
      (clickProceed w pageHref risk profileId).st.alerted = true) ∧
    (∀ m, (clickProceed w pageHref risk profileId).st.sent = w.st.sent ++ [m] →
      m.decision = "proceed" ∧ m.pinVerified = true ∧
      w.st.pinField = (match w.rules with
        | some r => r.adminPin
        | none => "")) ∧
    ((match w.rules with
        | some r => r.adminPin
        | none => "") ≠ "" →
      w.st.pinField = (match w.rules with
        | some r => r.adminPin
        | none => "") →
      (clickProceed w pageHref risk profileId).st.sent = w.st.sent ++
        [{ decision := "proceed", reason := w.st.reasonText, tabUrl := pageHref,
           risk := risk, profileId := profileId, pinVerified := true }] ∧
      (clickProceed w pageHref risk profileId).st.overlayOpen = false) := by
  refine ⟨?_, ?_, ?_⟩
  · intro hne
    by_cases hemp : (match w.rules with
        | some r => r.adminPin
        | none => "") = ""
    · simp [clickProceed, hpin, hemp]
    · simp [clickProceed, hpin, hemp, hne]
  · intro m hm
    by_cases hemp : (match w.rules with
        | some r => r.adminPin
        | none => "") = ""
    · simp [clickProceed, hpin, hemp] at hm
    · by_cases hne : w.st.pinField = (match w.rules with
        | some r => r.adminPin
        | none => "")
      · simp [clickProceed, hpin, hemp, hne, sendDecision, closeOverlay] at hm
        simp [← hm, hne]
      · simp [clickProceed, hpin, hemp, hne] at hm
  · intro hemp hne
    simp [clickProceed, hpin, hemp, hne, sendDecision, closeOverlay]

/-- C9 witness: the concrete strict router world with a wrong then a right PIN. -/
theorem strictProceed_pin_gate_witness :
    ({ wStrict with st := { wStrict.st with pinField := "9999" } }.st.pinRequired = true) ∧
    ("9999" ≠ (match ({ wStrict with st := { wStrict.st with pinField := "9999" } }).rules with
        | some r => r.adminPin
        | none => "")) ∧
    ((clickProceed { wStrict with st := { wStrict.st with pinField := "9999" } }
        "https://chat.example/x" 85 "strict").st.sent
      = { wStrict with st := { wStrict.st with pinField := "9999" } }.st.sent ∧
     (clickProceed { wStrict with st := { wStrict.st with pinField := "9999" } }
        "https://chat.example/x" 85 "strict").st.alerted = true) ∧
    ((clickProceed { wStrict with st := { wStrict.st with pinField := "1234" } }
        "https://chat.example/x" 85 "strict").st.sent
      = { wStrict with st := { wStrict.st with pinField := "1234" } }.st.sent ++
        [{ decision := "proceed", reason := wStrict.st.reasonText,
           tabUrl := "https://chat.example/x", risk := 85, profileId := "strict",
           pinVerified := true }]) := by
  have hwrong := strictProceed_pin_gate
    { wStrict with st := { wStrict.st with pinField := "9999" } }
    "https://chat.example/x" 85 "strict" (by decide)
  have hright := strictProceed_pin_gate
    { wStrict with st := { wStrict.st with pinField := "1234" } }
    "https://chat.example/x" 85 "strict" (by decide)
  have h1 := hwrong.1 (by decide)
  have h2 := (hright.2.2 (by decide) (by decide)).1
  exact ⟨by decide, by decide, ⟨h1.2.1, h1.2.2.2⟩, by simpa using h2⟩

/-! ## Claim C8 -/

/-- C8: a persisted-rules change unconditionally empties both the last-open
cooldown map and the consent map before the re-evaluation sweep runs, so after
the sweep the consent map is still empty and every last-open entry carries the
sweep timestamp `now` — no pre-change consent or cooldown entry survives. -/
theorem rulesChanged_invalidates_caches (s : EngineState) (newValue : Option Rules)
    (aiDomains : List String) (storageRules : Option Rules) (tabs : List Tab) (now : Nat) :
    (handleRulesChanged s newValue aiDomains storageRules tabs now).1.consentMap = [] ∧
    ∀ e ∈ (handleRulesChanged s newValue aiDomains storageRules tabs now).1.lastOpenMap,
      e.2 = now := by
  unfold handleRulesChanged forceReevaluateAndPrompt
  dsimp only
  constructor
  · rw [(foldl_reevalFold_inv _ _ _ _ _).1]
  · exact (foldl_reevalFold_inv _ _ _ _ _).2 (by intro e he; simp at he)

/-- A pre-change engine state with a stale cooldown and a stale consent entry. -/
def sStale : EngineState :=
  { lastOpenMap := [("3|old.com", 5)], consentMap := [("3|old.com", 999999999)],
    rulesCache := some rulesOff }

/-- C8 witness: a concrete rules change wipes the stale consent entry, and the
only cooldown entry left after the sweep carries the sweep timestamp. -/
theorem rulesChanged_invalidates_caches_witness :
    (handleRulesChanged sStale (some rulesStrict) ["evil.com"] (some rulesStrict)
        [⟨7, "https://a.evil.com/x"⟩] 100000).1.consentMap = [] ∧
    (handleRulesChanged sStale (some rulesStrict) ["evil.com"] (some rulesStrict)
        [⟨7, "https://a.evil.com/x"⟩] 100000).1.lastOpenMap = [("7|a.evil.com", 100000)] :=
  ⟨(rulesChanged_invalidates_caches sStale (some rulesStrict) ["evil.com"] (some rulesStrict)
      [⟨7, "https://a.evil.com/x"⟩] 100000).1,
   by decide⟩

/-! ## Claim C2 -/

/-- C2: on every trigger path — tab-navigation completion, in-page
`AI_UI_DETECTED` signal, and the policy-change re-evaluation sweep — if the
host matches the active profile's block list (suffix-aware), the risk value
placed in the directive and in every risk-carrying log entry is exactly 100,
regardless of the scorer's weighted output. -/
theorem blocklist_forces_risk_100 :
    (∀ (s : EngineState) (aiDomains : List String) (storageRules : Option Rules) (tab : Tab)
        (statusComplete : Bool) (now : Nat) (p : Profile),
      getActiveProfileSync (updCache s storageRules) = some p →
      isHostInList (hostFromUrl tab.url) p.blockList = true →
      (∀ d, (handleTabUpdated s aiDomains storageRules tab statusComplete now).directive = some d →
        d.risk = 100) ∧
      (∀ l ∈ (handleTabUpdated s aiDomains storageRules tab statusComplete now).logs,
        l.risk = some 100)) ∧
    (∀ (s : EngineState) (aiDomains : List String) (storageRules : Option Rules) (msg : AiUiMsg)
        (senderTab : Option Tab) (now : Nat) (p : Profile),
      getActiveProfileSync (updCache s storageRules) = some p →
      isHostInList (hostFromUrl (effectivePageUrl msg.pageUrl senderTab)) p.blockList = true →
      (∀ d, (handleAiUiDetected s aiDomains storageRules msg senderTab now).directive = some d →
        d.risk = 100) ∧
      (∀ l ∈ (handleAiUiDetected s aiDomains storageRules msg senderTab now).logs,
        l.risk = none ∨ l.risk = some 100)) ∧
    (∀ (aiDomains : List String) (p : Profile) (s : EngineState) (t : Tab) (now : Nat),
      isHostInList (hostFromUrl t.url) p.blockList = true →
      (∀ d, (reevalTab aiDomains (some p) s t now).directive = some d → d.risk = 100) ∧
      (∀ l ∈ (reevalTab aiDomains (some p) s t now).logs, l.risk = some 100)) := by
  refine ⟨?_, ?_, ?_⟩
  · intro s aiDomains storageRules tab statusComplete now p hp hb
    constructor
    · intro d hd
      simp only [handleTabUpdated, hp] at hd
      repeat' split at hd
      all_goals simp_all [hb]
      all_goals (subst hd; simp)
    · intro l hl
      simp only [handleTabUpdated, hp] at hl
      repeat' split at hl
      all_goals simp_all [hb]
  · intro s aiDomains storageRules msg senderTab now p hp hb
    constructor
    · intro d hd
      simp only [handleAiUiDetected, hp] at hd
      repeat' split at hd
      all_goals simp_all [hb]
      all_goals (subst hd; simp)
    · intro l hl
      simp only [handleAiUiDetected, hp] at hl
      repeat' split at hl
      all_goals simp_all [hb]
  · intro aiDomains p s t now hb
    constructor
    · intro d hd
      simp only [reevalTab] at hd
      repeat' split at hd
      all_goals simp_all [hb]
      all_goals (subst hd; simp)
    · intro l hl
      simp only [reevalTab] at hl
      repeat' split at hl
      all_goals simp_all [hb]

/-- The directive a blocked navigation to `a.evil.com` produces. -/
def dirBlocked : Directive :=
  ⟨"This site is blocked by policy", ⟨true, [], zeroCounts, false, true⟩, 100, "strict"⟩

/-- C2 witness: a concrete blocked navigation emits exactly `dirBlocked`, and
the claim's conclusion instantiated at it gives risk 100 on both the
navigation path and the sweep path. -/
theorem blocklist_forces_risk_100_witness :
    getActiveProfileSync (updCache sEmpty (some rulesStrict)) = some profStrict ∧
    isHostInList (hostFromUrl "https://a.evil.com/x") profStrict.blockList = true ∧
    (handleTabUpdated sEmpty ["evil.com"] (some rulesStrict) ⟨7, "https://a.evil.com/x"⟩
        true 100000).directive = some dirBlocked ∧
    (reevalTab ["evil.com"] (some profStrict) sEmpty ⟨7, "https://a.evil.com/x"⟩
        100000).directive = some dirBlocked ∧
    dirBlocked.risk = 100 :=
  ⟨by decide, by decide, by decide, by decide,
   ((blocklist_forces_risk_100.1) sEmpty ["evil.com"] (some rulesStrict)
     ⟨7, "https://a.evil.com/x"⟩ true 100000 profStrict (by decide) (by decide)).1
     dirBlocked (by decide)⟩

/-! ## Claim C3 -/

/-- C3: on every trigger path, if the host matches the active profile's allow
list (suffix-aware), the engine short-circuits: no `OPEN_ROUTER` directive is
emitted, no dedup admission is attempted (both dedup/consent maps are left
untouched), and the only possible log entry is the `ui_detected_suppressed`
record of the in-page path. -/
theorem allowlist_short_circuit :
    (∀ (s : EngineState) (aiDomains : List String) (storageRules : Option Rules) (tab : Tab)
        (statusComplete : Bool) (now : Nat) (p : Profile),
      getActiveProfileSync (updCache s storageRules) = some p →
      isHostInList (hostFromUrl tab.url) p.allowList = true →
      (handleTabUpdated s aiDomains storageRules tab statusComplete now).directive = none ∧
      (handleTabUpdated s aiDomains storageRules tab statusComplete now).state.lastOpenMap
        = s.lastOpenMap ∧
      (handleTabUpdated s aiDomains storageRules tab statusComplete now).state.consentMap
        = s.consentMap ∧
      (handleTabUpdated s aiDomains storageRules tab statusComplete now).logs = []) ∧
    (∀ (s : EngineState) (aiDomains : List String) (storageRules : Option Rules) (msg : AiUiMsg)
        (senderTab : Option Tab) (now : Nat) (p : Profile),
      getActiveProfileSync (updCache s storageRules) = some p →
      isHostInList (hostFromUrl (effectivePageUrl msg.pageUrl senderTab)) p.allowList = true →
      (handleAiUiDetected s aiDomains storageRules msg senderTab now).directive = none ∧
      (handleAiUiDetected s aiDomains storageRules msg senderTab now).state.lastOpenMap
        = s.lastOpenMap ∧
      (handleAiUiDetected s aiDomains storageRules msg senderTab now).state.consentMap
        = s.consentMap ∧
      (∀ l ∈ (handleAiUiDetected s aiDomains storageRules msg senderTab now).logs,
        l.kind = "ui_detected_suppressed")) ∧
    (∀ (aiDomains : List String) (p : Profile) (s : EngineState) (t : Tab) (now : Nat),
      isHostInList (hostFromUrl t.url) p.allowList = true →
      (reevalTab aiDomains (some p) s t now).directive = none ∧
      (reevalTab aiDomains (some p) s t now).state = s ∧
      (reevalTab aiDomains (some p) s t now).logs = []) := by
  refine ⟨?_, ?_, ?_⟩
  · intro s aiDomains storageRules tab statusComplete now p hp ha
    simp only [handleTabUpdated, hp]
    repeat' split
    all_goals simp_all [ha]
  · intro s aiDomains storageRules msg senderTab now p hp ha
    simp only [handleAiUiDetected, hp]
    repeat' split
    all_goals simp_all [ha]
  · intro aiDomains p s t now ha
    simp only [reevalTab]
    repeat' split
    all_goals simp_all [ha]

/-- C3 witness: with `claude.ai` on the strict profile's allow list, a concrete
navigation and a concrete sweep iteration emit nothing and leave the maps
untouched. -/
theorem allowlist_short_circuit_witness :
    getActiveProfileSync (updCache sEmpty (some rulesStrict)) = some profStrict ∧
    isHostInList (hostFromUrl "https://claude.ai/chat") profStrict.allowList = true ∧
    ((handleTabUpdated sEmpty ["claude.ai"] (some rulesStrict) ⟨7, "https://claude.ai/chat"⟩
        true 100000).directive = none ∧
     (handleTabUpdated sEmpty ["claude.ai"] (some rulesStrict) ⟨7, "https://claude.ai/chat"⟩
        true 100000).state.lastOpenMap = sEmpty.lastOpenMap ∧
     (handleTabUpdated sEmpty ["claude.ai"] (some rulesStrict) ⟨7, "https://claude.ai/chat"⟩
        true 100000).state.consentMap = sEmpty.consentMap ∧
     (handleTabUpdated sEmpty ["claude.ai"] (some rulesStrict) ⟨7, "https://claude.ai/chat"⟩
        true 100000).logs = []) ∧
    ((reevalTab ["claude.ai"] (some profStrict) sEmpty ⟨7, "https://claude.ai/chat"⟩
        100000).directive = none ∧
     (reevalTab ["claude.ai"] (some profStrict) sEmpty ⟨7, "https://claude.ai/chat"⟩
        100000).state = sEmpty ∧
     (reevalTab ["claude.ai"] (some profStrict) sEmpty ⟨7, "https://claude.ai/chat"⟩
        100000).logs = []) :=
  ⟨by decide, by decide,
   (allowlist_short_circuit.1) sEmpty ["claude.ai"] (some rulesStrict)
     ⟨7, "https://claude.ai/chat"⟩ true 100000 profStrict (by decide) (by decide),
   (allowlist_short_circuit.2.2) ["claude.ai"] profStrict sEmpty
     ⟨7, "https://claude.ai/chat"⟩ 100000 (by decide)⟩

end AIPG

example : AIPG.hostFromUrl "https://Chat.OpenAI.com/x?q=1" = "chat.openai.com" := by decide
example : AIPG.isHttpUrl "https://a.b/" = true := by decide
example : AIPG.isHttpUrl "ftp://a.b/" = false := by decide
example : AIPG.isHttpUrl "nourl" = false := by decide
example : AIPG.isHostInList "chat.openai.com" ["openai.com"] = true := by decide
example : AIPG.isHostInList "notopenai.com" ["openai.com"] = false := by decide
example : AIPG.normalizeHostEntry " .Foo.Bar. " = "foo.bar" := by decide
example : AIPG.normalizeHostEntry "https://Foo.Bar/path" = "foo.bar" := by decide
example : AIPG.isInternal "https://corp.example.com/" = true := by decide
example : AIPG.isInternal "https://mycorp.example.com/" = false := by decide
example : AIPG.isInternal "https://printer.local/" = true := by decide
example : AIPG.computeRiskScore ⟨true, [], ⟨0,0,0,0⟩, false, false⟩
    { id := "x", name := "x", allowList := [], blockList := [], trackUsers := "off",
      trackPrompts := "off", requireAdminPinAboveThreshold := false, riskThreshold := 70,
      sensitiveFieldWeights := ⟨10, 10, 10, 10⟩, aiOnPageWeight := 25,
      aiDomainWeight := 40, internalSiteWeight := 20 } = 40 := by decide
